import Mathlib

/-!
Shallow embedding of the NuttX simulator host-backed framebuffer and
touch-input drivers:

* `arch/sim/src/sim/posix/sim_x11framebuffer.c` — multi-screen variant
  (`CONFIG_SIM_MULTI_SCREEN_SUPPORT` defined, `CONFIG_SIM_X11NOSHM`
  undefined, so the shared-memory acquisition ladder is compiled in);
* `arch/sim/src/sim/sim_touchscreen.c` — multi-screen variant (bounded
  ring buffer plus deferred worker);
* `arch/sim/src/sim/sim_framebuffer.c` — with `CONFIG_SIM_X11FB`.

Fallible host (X11 / System V shm / libc) calls are modelled by an oracle
`Host` that fixes the outcome of each call.  Buffers and image descriptors
are modelled as tags: their byte sizes only parameterize the host
allocation calls and do not feed back into the driver state, so the size
expressions (which the drivers do compute, in `sim_x11init`) appear
only in the layout outputs.  Machine integers are `Nat`/`Int` with an
explicit `% 2 ^ w` wherever C applies a narrowing conversion.
-/

namespace NuttxSim

/-- Compile-time configuration constants consumed by the three files. -/
structure Config where
  screenCount : Nat   -- CONFIG_SIM_SCREEN_COUNT
  nwindows : Nat      -- CONFIG_SIM_X11NWINDOWS
  fbbpp : Nat         -- CONFIG_SIM_FBBPP
  fbwidth : Nat       -- CONFIG_SIM_FBWIDTH
  fbheight : Nat      -- CONFIG_SIM_FBHEIGHT
  fbcount : Nat       -- CONFIG_SIM_FRAMEBUFFER_COUNT
  intervalLine : Nat  -- CONFIG_SIM_FB_INTERVAL_LINE
  deriving DecidableEq

/-- Outcome oracle for the fallible host calls made during acquisition. -/
structure Host where
  displayOk : Bool          -- XOpenDisplay returns a display
  depth : Nat               -- XGetWindowAttributes reports this pixel depth
  shmQueryOk : Bool         -- XShmQueryExtension
  shmCreateImageErr : Bool  -- X error trapped around XShmCreateImage
  shmCreateImageNull : Bool -- XShmCreateImage returns NULL (no X error)
  shmgetFail : Bool         -- shmget returns a negative id
  shmatFail : Bool          -- shmat returns (char *)-1
  shmAttachFail : Bool      -- XShmAttach traps an X error or returns zero
  xCreateImageNull : Bool   -- XCreateImage on the degraded path returns NULL
  fbMallocFail : Bool       -- malloc of the degraded framebuffer returns NULL
  transMallocFail : Bool    -- malloc of the conversion framebuffer returns NULL
  deriving DecidableEq

/-- Resource tiers of the acquisition ladder, for acquire/release accounting. -/
inductive Res where
  | shmImage   -- XImage descriptor from XShmCreateImage
  | shmSeg     -- System V shared segment from shmget
  | shmMap     -- process-side mapping from shmat
  | srvAttach  -- server-side attachment from XShmAttach
  | heapBuf    -- malloc'ed degraded framebuffer
  | localImage -- XImage descriptor from XCreateImage (degraded path)
  | transBuf   -- malloc'ed conversion framebuffer
  deriving DecidableEq

/-- An acquire or release of one resource, in program order. -/
inductive REvent where
  | acq : Res → REvent
  | rel : Res → REvent
  deriving DecidableEq

/-- Number of times resource `r` is acquired in an event trace. -/
def acqCount (r : Res) : List REvent → Nat
  | [] => 0
  | REvent.acq r' :: es => (if r' = r then 1 else 0) + acqCount r es
  | REvent.rel _ :: es => acqCount r es

/-- Number of times resource `r` is released in an event trace. -/
def relCount (r : Res) : List REvent → Nat
  | [] => 0
  | REvent.rel r' :: es => (if r' = r then 1 else 0) + relCount r es
  | REvent.acq _ :: es => relCount r es

/-- Ownership mode of the pixel framebuffer pointer. -/
inductive Buf where
  | shm   -- points into the attached shared-memory segment
  | heap  -- plain malloc allocation
  deriving DecidableEq

/-- Which host call produced the current image descriptor. -/
inductive Img where
  | shmImg   -- from XShmCreateImage
  | localImg -- from XCreateImage
  deriving DecidableEq

/-- Per-window state, `struct sim_x11window_s` (host handles as tags). -/
structure Win where
  displayOpen : Bool     -- display != NULL
  shmcheckpoint : Nat
  useshm : Bool
  framebuffer : Option Buf
  image : Option Img
  fbpixelwidth : Nat
  fbpixelheight : Nat
  fbbpp : Nat
  fblen : Nat
  transAllocated : Bool  -- trans_framebuffer != NULL
  offset : Nat
  deriving DecidableEq

/-- A zeroed window, as the static `g_x11_windows[]` array starts out. -/
def win0 : Win :=
  { displayOpen := false, shmcheckpoint := 0, useshm := false,
    framebuffer := none, image := none, fbpixelwidth := 0, fbpixelheight := 0,
    fbbpp := 0, fblen := 0, transAllocated := false, offset := 0 }

/-- `sim_x11uninitialize` (sim_x11framebuffer.c lines 331-347): the rollback
helper invoked when a ladder step fails.  It frees the framebuffer only when
it is a non-shm heap allocation, then resets the checkpoint to 1. -/
def sim_x11uninitialize (w : Win) : Win × List REvent :=
  let s :=
    if 1 < w.shmcheckpoint ∧ w.useshm = false ∧ w.framebuffer.isSome then
      ({ w with framebuffer := none }, [REvent.rel Res.heapBuf])
    else (w, [])
  if 0 < s.1.shmcheckpoint then ({ s.1 with shmcheckpoint := 1 }, s.2) else s

/-- The degraded allocation path of `sim_x11mapsharedmem` (the `shmerror`
label and the no-shm branch, lines 438-460): malloc a plain framebuffer —
the code does not check malloc's return value — then wrap it with
`XCreateImage`; a NULL image is a hard `-1` error, otherwise the checkpoint
advances once. -/
def sim_x11shmerror (h : Host) (w : Win) (ev : List REvent) :
    Win × List REvent × Int :=
  let w := { w with useshm := false }
  let s :=
    if h.fbMallocFail then ({ w with framebuffer := none }, ev)
    else ({ w with framebuffer := some Buf.heap }, ev ++ [REvent.acq Res.heapBuf])
  if h.xCreateImageNull then
    ({ s.1 with image := none }, s.2, -1)
  else
    ({ s.1 with image := some Img.localImg, shmcheckpoint := s.1.shmcheckpoint + 1 },
     s.2 ++ [REvent.acq Res.localImage], 0)

/-- `sim_x11mapsharedmem` (lines 353-463).  The `depth`, `fblen`, `fbcount`
and `interval` arguments only size the host allocation calls
(`XShmCreateImage`, `shmget`, `malloc`); buffers being abstract tags here,
they do not influence the returned state.  Each checkpoint increment and the
error-trap brackets around `XShmCreateImage` and `XShmAttach` are mirrored;
when the trap reports an error the produced image descriptor is abandoned
(not counted as acquired). -/
def sim_x11mapsharedmem (h : Host) (depth fblen fbcount interval : Nat)
    (w : Win) : Win × List REvent × Int :=
  let w := { w with shmcheckpoint := 1, useshm := false }
  if h.shmQueryOk then
    let w := { w with useshm := true }
    if h.shmCreateImageErr then
      let u := sim_x11uninitialize w
      sim_x11shmerror h u.1 u.2
    else if h.shmCreateImageNull then
      ({ w with image := none }, [], -1)
    else
      let w := { w with image := some Img.shmImg, shmcheckpoint := 2 }
      let ev := [REvent.acq Res.shmImage]
      if h.shmgetFail then
        let u := sim_x11uninitialize w
        sim_x11shmerror h u.1 (ev ++ u.2)
      else
        let w := { w with shmcheckpoint := 3 }
        let ev := ev ++ [REvent.acq Res.shmSeg]
        if h.shmatFail then
          let u := sim_x11uninitialize w
          sim_x11shmerror h u.1 (ev ++ u.2)
        else
          let w := { w with shmcheckpoint := 4 }
          let ev := ev ++ [REvent.acq Res.shmMap]
          if h.shmAttachFail then
            let u := sim_x11uninitialize w
            sim_x11shmerror h u.1 (ev ++ u.2)
          else
            ({ w with framebuffer := some Buf.shm, shmcheckpoint := 5 },
             ev ++ [REvent.acq Res.srvAttach], 0)
  else
    sim_x11shmerror h w []

/-- 5-bit channel expansion used by `sim_x11depth16to32`. -/
def scale5 (v : Nat) : Nat := (v * 263 + 7) >>> 5

/-- 6-bit channel expansion used by `sim_x11depth16to32`. -/
def scale6 (v : Nat) : Nat := (v * 259 + 3) >>> 6

/-- One 32-bit output pixel (`x11_color32_t`), channels as stored bytes. -/
structure Color32 where
  red : Nat
  green : Nat
  blue : Nat
  alpha : Nat
  deriving DecidableEq

/-- One loop iteration of `sim_x11depth16to32` (lines 67-82): the packed
16-bit source has bit-fields blue:5 (bits 0-4), green:6 (bits 5-10),
red:5 (bits 11-15); each expanded channel is stored into a uint8_t. -/
def pix16to32 (p : Nat) : Color32 :=
  { red := scale5 (p / 2048 % 32) % 256,
    green := scale6 (p / 32 % 64) % 256,
    blue := scale5 (p % 32) % 256,
    alpha := 255 }

/-- The `for (size /= 4; size; size--)` loop: one source pixel consumed and
one destination pixel written per iteration. -/
def convLoop : Nat → List Nat → List Color32
  | 0, _ => []
  | _ + 1, [] => []
  | n + 1, p :: ps => pix16to32 p :: convLoop n ps

/-- `sim_x11depth16to32 (dst, size, src)`: converts `size / 4` pixels. -/
def sim_x11depth16to32 (size : Nat) (src : List Nat) : List Color32 :=
  convLoop (size / 4) src

/-- Which buffer a returned `*fbmem` points at. -/
inductive FbPtr where
  | primary : Option Buf → FbPtr  -- win->framebuffer
  | trans : FbPtr                 -- win->trans_framebuffer
  deriving DecidableEq

/-- The out-parameters and return value of `sim_x11init`. -/
structure InitResult where
  ret : Int
  bpp : Nat
  stride : Nat
  fblen : Nat
  fbmem : Option FbPtr
  deriving DecidableEq

def EINVAL : Int := 22

def ENODEV : Int := 19

/-- Depth normalization of `sim_x11init`: a 24-bit host depth is used
as 32 because X expects 32-bit alignment. -/
def normDepth (d : Nat) : Nat := if d = 24 then 32 else d

/-- `sim_x11initialize` of the C source (lines 477-576), named sim_x11init here.  On the early error returns the C
code leaves the caller's out variables untouched; `0` / `none` stands in for
those unwritten values.  Note that the return value of
`sim_x11mapsharedmem` is not examined, exactly as at line 540. -/
def sim_x11init (cfg : Config) (h : Host) (idx : Int)
    (width height : Nat) (fbcount : Int) (interval : Nat) (w : Win) :
    Win × List REvent × InitResult :=
  if idx < 0 ∨ (cfg.screenCount : Int) ≤ idx then
    (w, [], ⟨-EINVAL, 0, 0, 0, none⟩)
  else
    let w := { w with fbpixelwidth := width, fbpixelheight := height }
    if fbcount < 1 then (w, [], ⟨-EINVAL, 0, 0, 0, none⟩)
    else if h.displayOk = false then (w, [], ⟨-ENODEV, 0, 0, 0, none⟩)
    else
      let w := { w with displayOpen := true }
      let depth := normDepth h.depth
      if depth ≠ cfg.fbbpp ∧ depth ≠ 32 ∧ cfg.fbbpp ≠ 16 then
        (w, [], ⟨-1, 0, 0, 0, none⟩)
      else
        let bpp := depth % 256
        let stride := depth * width / 8 % 65536
        let fblen := stride * height
        let m := sim_x11mapsharedmem h h.depth fblen fbcount.toNat interval w
        let w := { m.1 with fbbpp := depth, fblen := fblen }
        let ev := m.2.1
        if depth = 32 ∧ cfg.fbbpp = 16 then
          let bpp := cfg.fbbpp % 256
          let stride := cfg.fbbpp * width / 8 % 65536
          let fblen := stride * height
          if h.transMallocFail then
            (w, ev, ⟨-1, bpp, stride, fblen, none⟩)
          else
            let w := { w with transAllocated := true }
            let ev := ev ++ [REvent.acq Res.transBuf]
            let fblen := if interval = 0 then fblen * fbcount.toNat else fblen
            (w, ev, ⟨0, bpp, stride, fblen, some FbPtr.trans⟩)
        else
          let fblen := if interval = 0 then fblen * fbcount.toNat else fblen
          (w, ev, ⟨0, bpp, stride, fblen, some (FbPtr.primary w.framebuffer)⟩)

/-- TOUCH_BUF_SIZE. -/
def touchBufSize : Nat := 16

/-- One raw host pointer sample, `struct sim_touch_event_s`. -/
structure TouchEvent where
  x : Int
  y : Int
  buttons : Int
  deriving DecidableEq

/-- The driver's `contact` byte.  `memset` leaves it at 0 (`CONTACT_NONE`
per the comments); the code only ever compares it against TOUCH_UP and
stores TOUCH_UP / TOUCH_DOWN / TOUCH_MOVE. -/
inductive Contact where
  | start  -- the zeroed initial value
  | up | down | move
  deriving DecidableEq

/-- The flag bits this driver puts in `point[0].flags` (TOUCH_DOWN,
TOUCH_MOVE, TOUCH_UP, TOUCH_ID_VALID, TOUCH_POS_VALID,
TOUCH_PRESSURE_VALID); the numeric bit values live in an external header,
so the set is modelled field-wise. -/
structure TouchFlags where
  down : Bool
  move : Bool
  up : Bool
  idValid : Bool
  posValid : Bool
  pressureValid : Bool
  deriving DecidableEq

/-- TOUCH_UP | TOUCH_ID_VALID. -/
def upFlags : TouchFlags := ⟨false, false, true, true, false, false⟩

/-- TOUCH_DOWN | TOUCH_ID_VALID | TOUCH_POS_VALID | TOUCH_PRESSURE_VALID. -/
def downFlags : TouchFlags := ⟨true, false, false, true, true, true⟩

/-- TOUCH_MOVE | TOUCH_ID_VALID | TOUCH_POS_VALID | TOUCH_PRESSURE_VALID. -/
def moveFlags : TouchFlags := ⟨false, true, false, true, true, true⟩

/-- `struct touch_point_s` as written by this driver. -/
structure TouchPoint where
  flags : TouchFlags
  x : Int
  y : Int
  h : Nat
  w : Nat
  pressure : Nat
  id : Nat
  deriving DecidableEq

/-- `struct touch_sample_s` with the single point this driver reports. -/
structure TouchSample where
  npoints : Nat
  point0 : TouchPoint
  deriving DecidableEq

/-- `struct sim_dev_s` (multi-screen variant). -/
structure SimDev where
  eventloop : Bool
  id : Nat          -- uint8_t
  contact : Contact
  head : Nat
  tail : Nat
  buf : List TouchEvent  -- TOUCH_BUF_SIZE slots
  workQueued : Bool
  deriving DecidableEq

/-- A zeroed device with an empty 16-slot ring. -/
def dev0 : SimDev :=
  { eventloop := false, id := 0, contact := Contact.start, head := 0,
    tail := 0, buf := List.replicate touchBufSize ⟨0, 0, 0⟩,
    workQueued := false }

/-- The common trailer of every emitted sample (sim_touchscreen.c lines
287-291): `npoints = 1`, nominal height/width 1, pressure 42, and the
device's current contact id. -/
def finishSample (smp : TouchSample) (id : Nat) : TouchSample :=
  { npoints := 1,
    point0 := { smp.point0 with h := 1, w := 1, pressure := 42, id := id } }

/-- The contact state machine applied to one popped sample — the body of
`sim_touch_worker` (lines 229-295), identical to the single-screen
`sim_buttonevent` logic (lines 475-541).  Returns the new device state, the
updated `sample` variable, and whether `touch_event` was called.  The
`sample` struct lives across loop iterations, so fields a branch does not
write (the position on a pen-up report) keep their previous contents. -/
def sim_touch_step (dev : SimDev) (e : TouchEvent) (smp : TouchSample) :
    SimDev × TouchSample × Bool :=
  if e.buttons = 0 then
    if dev.contact = Contact.up then (dev, smp, false)
    else
      let dev := { dev with contact := Contact.up }
      let smp := { smp with point0 := { smp.point0 with flags := upFlags } }
      (dev, finishSample smp dev.id, true)
  else
    let smp := { smp with point0 := { smp.point0 with x := e.x, y := e.y } }
    if dev.contact = Contact.up then
      let dev := { dev with contact := Contact.down, id := (dev.id + 1) % 256 }
      let smp := { smp with point0 := { smp.point0 with flags := downFlags } }
      (dev, finishSample smp dev.id, true)
    else
      let dev := { dev with contact := Contact.move }
      let smp := { smp with point0 := { smp.point0 with flags := moveFlags } }
      (dev, finishSample smp dev.id, true)

/-- The `while (head != tail)` drain loop of `sim_touch_worker`, with fuel:
the ring holds at most `touchBufSize - 1` pending samples, so
`touchBufSize` iterations always reach the empty state.  Each iteration
pops `buf[tail]`, advances `tail` with the wrap at TOUCH_BUF_SIZE, runs the
state machine and reports the sample when one is produced. -/
def sim_touch_worker_loop : Nat → SimDev → TouchSample →
    SimDev × List TouchSample
  | 0, dev, _ => (dev, [])
  | fuel + 1, dev, smp =>
    if dev.head = dev.tail then (dev, [])
    else
      let e := dev.buf.getD dev.tail ⟨0, 0, 0⟩
      let next := if touchBufSize ≤ dev.tail + 1 then 0 else dev.tail + 1
      let dev := { dev with tail := next }
      let s := sim_touch_step dev e smp
      let r := sim_touch_worker_loop fuel s.1 s.2.1
      if s.2.2 then (r.1, s.2.1 :: r.2) else r

/-- `sim_touch_worker` (lines 204-297).  The `sample` local is stack
garbage on entry, modelled by the explicit `smp0` argument. -/
def sim_touch_worker (dev : SimDev) (smp0 : TouchSample) :
    SimDev × List TouchSample :=
  sim_touch_worker_loop touchBufSize dev smp0

/-- The per-device body of the producer `sim_buttonevent` (lines 303-335)
after the display-range check: drop everything when the device is not
registered; otherwise compute `next = head + 1` with the wrap at
TOUCH_BUF_SIZE, and only when `next != tail` store the sample at `head`,
publish `next` as the new head and schedule the worker. -/
def sim_buttonevent_dev (dev : SimDev) (e : TouchEvent) : SimDev :=
  if dev.eventloop = false then dev
  else
    let next := if touchBufSize ≤ dev.head + 1 then 0 else dev.head + 1
    if next ≠ dev.tail then
      { dev with buf := dev.buf.set dev.head e, head := next, workQueued := true }
    else dev

/-- `sim_buttonevent(display, x, y, buttons)` over the device table. -/
def sim_buttonevent (cfg : Config) (devs : List SimDev) (display : Int)
    (e : TouchEvent) : List SimDev :=
  if display < 0 ∨ (cfg.screenCount : Int) ≤ display then devs
  else
    devs.set display.toNat
      (sim_buttonevent_dev (devs.getD display.toNat dev0) e)

/-- Modelled from the spec: one pending pan-info entry of the generic fb
layer (`union fb_paninfo_u`, read through `info.planeinfo`). -/
structure PanInfo where
  yoffset : Nat
  stride : Nat
  deriving DecidableEq

/-- Per-display context of sim_framebuffer.c (`struct sim_fb_s`).  The
`panq` field is modelled from the spec: the generic fb driver layer keeps a
bounded per-display queue of pending pan-info entries, oldest first, that
`fb_paninfo_count` / `fb_remove_paninfo` / `fb_peek_paninfo` operate on —
those functions live in the generic layer, outside this source set. -/
structure UpFbCtx where
  initialized : Bool
  displayno : Nat
  power : Nat
  vtableSet : Bool   -- the vtable function pointers are filled in
  vinfoFmt : Nat
  vinfoXres : Nat
  vinfoYres : Nat
  vinfoNplanes : Nat
  piXresVirtual : Nat
  piYresVirtual : Nat
  piFbmem : Option FbPtr
  piFblen : Nat
  piBpp : Nat
  piStride : Nat
  piDisplay : Nat
  panq : List PanInfo
  deriving DecidableEq

/-- A zeroed `struct sim_fb_s`, as the static `g_fb[]` array starts out. -/
def upFbCtx0 : UpFbCtx :=
  { initialized := false, displayno := 0, power := 0, vtableSet := false,
    vinfoFmt := 0, vinfoXres := 0, vinfoYres := 0, vinfoNplanes := 0,
    piXresVirtual := 0, piYresVirtual := 0, piFbmem := none, piFblen := 0,
    piBpp := 0, piStride := 0, piDisplay := 0, panq := [] }

/-- Modelled from the spec: `fb_paninfo_count` returns the pending depth. -/
def fb_paninfo_count (c : UpFbCtx) : Nat := c.panq.length

/-- Modelled from the spec: `fb_remove_paninfo` drops the oldest pending
pan-info entry. -/
def fb_remove_paninfo (c : UpFbCtx) : UpFbCtx := { c with panq := c.panq.tail }

/-- Modelled from the spec: `fb_peek_paninfo` reads the oldest pending
entry without removing it, failing when the queue is empty. -/
def fb_peek_paninfo (c : UpFbCtx) : Option PanInfo := c.panq.head?

/-- Externally visible calls made by one pass of the vsync tick. -/
inductive LoopAct where
  | vsync : Nat → LoopAct          -- fb_notify_vsync on display i
  | setOffset : Nat → Nat → LoopAct -- sim_x11setoffset(i, byte offset)
  | update : Nat → LoopAct         -- sim_x11update(i)
  deriving DecidableEq

/-- The per-display body of `sim_x11loop` (sim_framebuffer.c lines
419-441): skip a context that is not initialized; otherwise notify vsync,
drop the oldest pan-info entry when more than one is pending, apply the
(remaining) oldest entry via `sim_x11setoffset(yoffset * stride)` when one
is available, and unconditionally call `sim_x11update`. -/
def sim_x11loop_ctx (i : Nat) (fb : UpFbCtx) : UpFbCtx × List LoopAct :=
  if fb.initialized = false then (fb, [])
  else
    let fb := if 1 < fb_paninfo_count fb then fb_remove_paninfo fb else fb
    let offActs :=
      match fb_peek_paninfo fb with
      | some p => [LoopAct.setOffset i (p.yoffset * p.stride)]
      | none => []
    (fb, [LoopAct.vsync i] ++ offActs ++ [LoopAct.update i])

/-- The `for (i = 0; i < CONFIG_SIM_X11NWINDOWS; i++)` walk. -/
def sim_x11loop_displays : Nat → List UpFbCtx → List UpFbCtx × List LoopAct
  | _, [] => ([], [])
  | i, fb :: rest =>
    let a := sim_x11loop_ctx i fb
    let b := sim_x11loop_displays (i + 1) rest
    (a.1 :: b.1, a.2 ++ b.2)

/-- The state the tick carries across invocations: the `static uint64_t
last` timestamp and the display table. -/
structure LoopState where
  last : Nat
  fbs : List UpFbCtx
  deriving DecidableEq

/-- uint64_t subtraction `now - last` (18446744073709551616 = 2 ^ 64). -/
def usub64 (a b : Nat) : Nat :=
  (a + 18446744073709551616 - b) % 18446744073709551616

/-- `sim_x11loop` (lines 406-444): run the body only when at least
16000000 ns of the monotonic host clock have elapsed since the last
executed body, and then stamp `last := now`. -/
def sim_x11loop (now : Nat) (s : LoopState) : LoopState × List LoopAct :=
  if 16000000 ≤ usub64 now s.last then
    let b := sim_x11loop_displays 0 s.fbs
    ({ last := now, fbs := b.1 }, b.2)
  else (s, [])

/-- FB_FMT is selected from CONFIG_SIM_FBBPP by the preprocessor chain at
lines 44-59; the numeric FB_FMT_* values live in an external header, so the
tag is modelled by the selecting bits-per-pixel. -/
def fbFmt (bpp : Nat) : Nat := bpp

/-- `up_fbinitialize` of the C source (sim_framebuffer.c lines 462-544, CONFIG_SIM_X11FB), named up_fbinit here:
validate the display index, return OK immediately when the context is
already initialized, otherwise zero the context, fill the static fields and
the vtable, run `sim_x11init`, and publish the plane info on
success.  Returns the new fb table, the new window table, the acquisition
trace and the return code. -/
def up_fbinit (cfg : Config) (h : Host) (fbs : List UpFbCtx)
    (wins : List Win) (display : Int) :
    List UpFbCtx × List Win × List REvent × Int :=
  if display < 0 ∨ (cfg.nwindows : Int) ≤ display then
    (fbs, wins, [], -EINVAL)
  else
    let d := display.toNat
    if (fbs.getD d upFbCtx0).initialized then (fbs, wins, [], 0)
    else
      let fb : UpFbCtx :=
        { upFbCtx0 with
          displayno := d, power := 100,
          vinfoFmt := fbFmt cfg.fbbpp, vinfoXres := cfg.fbwidth,
          vinfoYres := cfg.fbheight, vinfoNplanes := 1, vtableSet := true,
          piXresVirtual := cfg.fbwidth,
          piYresVirtual := cfg.fbheight * cfg.fbcount }
      let m := sim_x11init cfg h display cfg.fbwidth cfg.fbheight
        (cfg.fbcount : Int) cfg.intervalLine (wins.getD d win0)
      let wins := wins.set d m.1
      let r := m.2.2
      if r.ret < 0 then (fbs.set d fb, wins, m.2.1, r.ret)
      else
        let fb := { fb with piFbmem := r.fbmem, piFblen := r.fblen, piBpp := r.bpp, piStride := r.stride, piDisplay := d, initialized := true }
        (fbs.set d fb, wins, m.2.1, 0)

/-- The rounded ratio `round (a / b)` on naturals (round half up; no tie
occurs at the instances it is used at below). -/
def roundDiv (a b : Nat) : Nat := (2 * a + b) / (2 * b)

/-- A host on which every fallible call succeeds, reporting depth `d`. -/
def okHost (d : Nat) : Host :=
  { displayOk := true, depth := d, shmQueryOk := true,
    shmCreateImageErr := false, shmCreateImageNull := false,
    shmgetFail := false, shmatFail := false, shmAttachFail := false,
    xCreateImageNull := false, fbMallocFail := false,
    transMallocFail := false }

/-- Host for the C1 scenario: shmget fails, everything else healthy. -/
def c1host : Host := { okHost 32 with shmgetFail := true }

/-- Host for the C2 scenario: the shm extension is unavailable and the
degraded path's XCreateImage returns NULL. -/
def c2host : Host := { okHost 32 with shmQueryOk := false, xCreateImageNull := true }

/-- A one-display configuration with logical depth 16, two buffers,
contiguous (interval 0), 320x240. -/
def cfg16 : Config :=
  { screenCount := 1, nwindows := 1, fbbpp := 16, fbwidth := 320,
    fbheight := 240, fbcount := 2, intervalLine := 0 }

/-- The same configuration at logical depth 32. -/
def cfg32 : Config := { cfg16 with fbbpp := 32 }

/-- The same configuration at logical depth 8. -/
def cfg8 : Config := { cfg16 with fbbpp := 8 }

/-! ## Helper lemmas -/

/-- The 5-bit expansion never exceeds a byte on in-range inputs. -/
theorem scale5_lt_256 : ∀ v < 32, scale5 v < 256 := by decide

/-- The 6-bit expansion never exceeds a byte on in-range inputs. -/
theorem scale6_lt_256 : ∀ v < 64, scale6 v < 256 := by decide

/-- `convLoop` produces exactly `n` pixels when the source suffices. -/
theorem convLoop_length : ∀ (n : Nat) (src : List Nat), n ≤ src.length →
    (convLoop n src).length = n := by
  intro n
  induction n with
  | zero => intro src _; rfl
  | succ k ih =>
    intro src hs
    cases src with
    | nil => simp at hs
    | cons p ps =>
      simp only [convLoop, List.length_cons] at hs ⊢
      exact congrArg (· + 1) (ih ps (by omega))

/-- Each `convLoop` output pixel is the conversion of the matching input. -/
theorem convLoop_getD : ∀ (n i : Nat) (src : List Nat), i < n →
    n ≤ src.length →
    (convLoop n src).getD i ⟨0, 0, 0, 0⟩ = pix16to32 (src.getD i 0) := by
  intro n
  induction n with
  | zero => intro i src hi; omega
  | succ k ih =>
    intro i src hi hs
    cases src with
    | nil => simp at hs
    | cons p ps =>
      cases i with
      | zero => rfl
      | succ j =>
        simp only [convLoop, List.getD_cons_succ, List.length_cons] at hs ⊢
        exact ih j ps (by omega) (by omega)

/-! ## Claim theorems -/

/-- Claim C5 (confirmed): `sim_x11depth16to32` on byte length `size`
converts exactly `size / 4` pixels; each output pixel expands the 5-bit
red, 6-bit green and 5-bit blue fields of the packed 16-bit source with
`(r * 263 + 7) >> 5`, `(g * 259 + 3) >> 6`, `(b * 263 + 7) >> 5` and an
opaque alpha; the all-ones pixel maps to (255, 255, 255, 255) and the zero
pixel to (0, 0, 0, 255). -/
theorem C5_depth16to32_conversion :
    (∀ (size : Nat) (src : List Nat), size / 4 ≤ src.length →
      (sim_x11depth16to32 size src).length = size / 4 ∧
      ∀ i, i < size / 4 →
        (sim_x11depth16to32 size src).getD i ⟨0, 0, 0, 0⟩ =
          { red := (src.getD i 0 / 2048 % 32 * 263 + 7) >>> 5,
            green := (src.getD i 0 / 32 % 64 * 259 + 3) >>> 6,
            blue := (src.getD i 0 % 32 * 263 + 7) >>> 5,
            alpha := 255 }) ∧
    sim_x11depth16to32 4 [65535] = [⟨255, 255, 255, 255⟩] ∧
    sim_x11depth16to32 4 [0] = [⟨0, 0, 0, 255⟩] := by
  refine ⟨fun size src hs => ⟨convLoop_length _ _ hs, fun i hi => ?_⟩, by decide, by decide⟩
  rw [sim_x11depth16to32, convLoop_getD _ _ _ hi hs]
  have h1 : src.getD i 0 / 2048 % 32 < 32 := Nat.mod_lt _ (by norm_num)
  have h2 : src.getD i 0 / 32 % 64 < 64 := Nat.mod_lt _ (by norm_num)
  have h3 : src.getD i 0 % 32 < 32 := Nat.mod_lt _ (by norm_num)
  simp only [pix16to32]
  rw [Nat.mod_eq_of_lt (scale5_lt_256 _ h1), Nat.mod_eq_of_lt (scale6_lt_256 _ h2),
    Nat.mod_eq_of_lt (scale5_lt_256 _ h3)]
  simp only [scale5, scale6]

/-- Witness for C5 at a concrete input. -/
theorem C5_depth16to32_conversion_witness :
    (sim_x11depth16to32 8 [65535, 0]).length = 2 :=
  (C5_depth16to32_conversion.1 8 [65535, 0] (by decide)).1

/-- Claim C6 counterexample: the channel scalings are NOT the rounded
ratios.  At v = 3, `(3 * 263 + 7) >> 5 = 24` while
`round (3 * 255 / 31) = round 24.67.. = 25` (not a tie, so every rounding
convention gives 25); at v = 11, `(11 * 259 + 3) >> 6 = 44` while
`round (11 * 255 / 63) = round 44.52.. = 45`. -/
theorem C6_not_rounded_ratio_cex :
    scale5 3 = 24 ∧ roundDiv (3 * 255) 31 = 25 ∧
    ¬ scale5 3 = roundDiv (3 * 255) 31 ∧
    scale6 11 = 44 ∧ roundDiv (11 * 255) 63 = 45 ∧
    ¬ scale6 11 = roundDiv (11 * 255) 63 := by
  decide

/-- Claim C6 (corrected): the channel scalings are one-shift integer
approximations of `v * 255 / 31` and `v * 255 / 63` with error strictly
below one — for every `v ≤ 31` the red/blue expansion lies between the
floored ratio and its ceiling, for every `v ≤ 63` the green expansion is
exactly the floored ratio `v * 255 / 63` — and both map the channel
extremes exactly (0 to 0, full scale to 255); they are not the
rounded-ratio expansion. -/
theorem C6_scaling_error_below_one :
    (∀ v ≤ 31, v * 255 / 31 ≤ scale5 v ∧ scale5 v ≤ (v * 255 + 30) / 31) ∧
    (∀ v ≤ 63, scale6 v = v * 255 / 63) ∧
    scale5 0 = 0 ∧ scale5 31 = 255 ∧ scale6 0 = 0 ∧ scale6 63 = 255 := by
  refine ⟨by decide, by decide, rfl, rfl, rfl, rfl⟩

/-- Witness for the corrected C6 at concrete channel values. -/
theorem C6_scaling_error_below_one_witness :
    (17 * 255 / 31 ≤ scale5 17 ∧ scale5 17 ≤ (17 * 255 + 30) / 31) ∧
    scale6 40 = 40 * 255 / 63 :=
  ⟨C6_scaling_error_below_one.1 17 (by decide),
   C6_scaling_error_below_one.2.1 40 (by decide)⟩

set_option maxHeartbeats 4000000 in
/-- Claim C3 (confirmed): starting from contact state UP, draining the raw
queue (buttons=0), (buttons=1, x=10, y=10), (buttons=1, x=12, y=11),
(buttons=0) emits exactly three samples flagged DOWN, MOVE, UP in that
order; the contact id equals `(id0 + 1) % 256` on all three (constant
across DOWN/MOVE, incremented exactly once on the UP-to-DOWN edge); and
every emitted sample has npoints=1, height=1, width=1, pressure=42. -/
theorem C3_touch_sequence_down_move_up (id0 : Nat) (smp0 : TouchSample) :
    (sim_touch_worker
        { eventloop := true, id := id0, contact := Contact.up, head := 4,
          tail := 0,
          buf := [⟨0, 0, 0⟩, ⟨10, 10, 1⟩, ⟨12, 11, 1⟩, ⟨0, 0, 0⟩],
          workQueued := false } smp0).2.length = 3 ∧
    (sim_touch_worker
        { eventloop := true, id := id0, contact := Contact.up, head := 4,
          tail := 0,
          buf := [⟨0, 0, 0⟩, ⟨10, 10, 1⟩, ⟨12, 11, 1⟩, ⟨0, 0, 0⟩],
          workQueued := false } smp0).2.map (fun s => s.point0.flags) =
      [downFlags, moveFlags, upFlags] ∧
    (sim_touch_worker
        { eventloop := true, id := id0, contact := Contact.up, head := 4,
          tail := 0,
          buf := [⟨0, 0, 0⟩, ⟨10, 10, 1⟩, ⟨12, 11, 1⟩, ⟨0, 0, 0⟩],
          workQueued := false } smp0).2.map (fun s => s.point0.id) =
      [(id0 + 1) % 256, (id0 + 1) % 256, (id0 + 1) % 256] ∧
    (sim_touch_worker
        { eventloop := true, id := id0, contact := Contact.up, head := 4,
          tail := 0,
          buf := [⟨0, 0, 0⟩, ⟨10, 10, 1⟩, ⟨12, 11, 1⟩, ⟨0, 0, 0⟩],
          workQueued := false } smp0).2.map
        (fun s => (s.npoints, s.point0.h, s.point0.w, s.point0.pressure)) =
      [(1, 1, 1, 42), (1, 1, 1, 42), (1, 1, 1, 42)] ∧
    (sim_touch_worker
        { eventloop := true, id := id0, contact := Contact.up, head := 4,
          tail := 0,
          buf := [⟨0, 0, 0⟩, ⟨10, 10, 1⟩, ⟨12, 11, 1⟩, ⟨0, 0, 0⟩],
          workQueued := false } smp0).2.map
        (fun s => (s.point0.x, s.point0.y)) =
      [(10, 10), (12, 11), (12, 11)] ∧
    (sim_touch_worker
        { eventloop := true, id := id0, contact := Contact.up, head := 4,
          tail := 0,
          buf := [⟨0, 0, 0⟩, ⟨10, 10, 1⟩, ⟨12, 11, 1⟩, ⟨0, 0, 0⟩],
          workQueued := false } smp0).1.id = (id0 + 1) % 256 ∧
    (sim_touch_worker
        { eventloop := true, id := id0, contact := Contact.up, head := 4,
          tail := 0,
          buf := [⟨0, 0, 0⟩, ⟨10, 10, 1⟩, ⟨12, 11, 1⟩, ⟨0, 0, 0⟩],
          workQueued := false } smp0).1.contact = Contact.up := by
  exact ⟨rfl, rfl, rfl, rfl, rfl, rfl, rfl⟩

/-- Claim C4 (confirmed): on a registered device, the producer
`sim_buttonevent` never writes a full ring — when `(head + 1) % 16 = tail`
the sample is dropped and the device (head, tail and all) is unchanged —
and otherwise it stores the sample at `head` and advances `head` by one
modulo 16 with `tail` untouched; in every case head and tail stay within
[0, 16). -/
theorem C4_buttonevent_queue_invariants (dev : SimDev) (e : TouchEvent)
    (hreg : dev.eventloop = true) (hh : dev.head < 16) (ht : dev.tail < 16) :
    ((dev.head + 1) % 16 = dev.tail → sim_buttonevent_dev dev e = dev) ∧
    ((dev.head + 1) % 16 ≠ dev.tail →
      (sim_buttonevent_dev dev e).buf = dev.buf.set dev.head e ∧
      (sim_buttonevent_dev dev e).head = (dev.head + 1) % 16 ∧
      (sim_buttonevent_dev dev e).tail = dev.tail) ∧
    (sim_buttonevent_dev dev e).head < 16 ∧
    (sim_buttonevent_dev dev e).tail < 16 := by
  have hnext : (if touchBufSize ≤ dev.head + 1 then 0 else dev.head + 1) =
      (dev.head + 1) % 16 := by
    by_cases hc : touchBufSize ≤ dev.head + 1
    · rw [if_pos hc]
      revert hc
      simp only [touchBufSize]
      omega
    · rw [if_neg hc]
      revert hc
      simp only [touchBufSize]
      omega
  simp only [sim_buttonevent_dev, hreg, Bool.true_eq_false, if_false, hnext]
  by_cases hfull : (dev.head + 1) % 16 = dev.tail
  · rw [if_neg (not_not_intro hfull)]
    exact ⟨fun _ => rfl, fun hc => absurd hfull hc, hh, ht⟩
  · rw [if_pos hfull]
    exact ⟨fun hc => absurd hc hfull, fun _ => ⟨rfl, rfl, rfl⟩,
      Nat.mod_lt _ (by norm_num), ht⟩

/-- Witness for C4: a concrete full ring (head 3, tail 4) drops the sample
and leaves the device unchanged. -/
theorem C4_buttonevent_queue_invariants_witness :
    sim_buttonevent_dev { dev0 with eventloop := true, head := 3, tail := 4 }
        ⟨5, 6, 7⟩ =
      { dev0 with eventloop := true, head := 3, tail := 4 } :=
  (C4_buttonevent_queue_invariants
      { dev0 with eventloop := true, head := 3, tail := 4 } ⟨5, 6, 7⟩
      rfl (by decide) (by decide)).1 (by decide)

/-- Claim C1 (corrected): injecting a failure at any checked rung of the
efficient shared-memory ladder (a trapped X error at image creation,
shmget, shmat, or XShmAttach) makes `sim_x11mapsharedmem` fall back to the
degraded heap path and return 0, with the degraded path fully active on
return (useshm cleared, heap framebuffer, locally created image,
checkpoint 2) — never a mix of the two paths; but the efficient-path
resources acquired before the failing step are NOT released: the call
performs no release at all, so they leak (see the counterexample). -/
theorem C1_fallback_active_but_leaks (h : Host)
    (depth fblen fbcount interval : Nat) (w : Win)
    (hq : h.shmQueryOk = true) (hnull : h.shmCreateImageNull = false)
    (hm : h.fbMallocFail = false) (hx : h.xCreateImageNull = false)
    (hfail : h.shmCreateImageErr = true ∨ h.shmgetFail = true ∨
      h.shmatFail = true ∨ h.shmAttachFail = true) :
    (sim_x11mapsharedmem h depth fblen fbcount interval w).2.2 = 0 ∧
    (sim_x11mapsharedmem h depth fblen fbcount interval w).1.useshm = false ∧
    (sim_x11mapsharedmem h depth fblen fbcount interval w).1.framebuffer =
      some Buf.heap ∧
    (sim_x11mapsharedmem h depth fblen fbcount interval w).1.image =
      some Img.localImg ∧
    (sim_x11mapsharedmem h depth fblen fbcount interval w).1.shmcheckpoint = 2 ∧
    ∀ r : Res,
      relCount r (sim_x11mapsharedmem h depth fblen fbcount interval w).2.1 = 0 := by
  cases h1 : h.shmCreateImageErr <;> cases h2 : h.shmgetFail <;>
    cases h3 : h.shmatFail <;> cases h4 : h.shmAttachFail <;>
    simp_all [sim_x11mapsharedmem, sim_x11shmerror, sim_x11uninitialize, relCount]

/-- Witness for the corrected C1: failure injected at shmget. -/
theorem C1_fallback_active_but_leaks_witness :
    (sim_x11mapsharedmem c1host 32 307200 2 0 win0).2.2 = 0 ∧
    (sim_x11mapsharedmem c1host 32 307200 2 0 win0).1.useshm = false ∧
    (sim_x11mapsharedmem c1host 32 307200 2 0 win0).1.framebuffer =
      some Buf.heap ∧
    (sim_x11mapsharedmem c1host 32 307200 2 0 win0).1.image =
      some Img.localImg ∧
    (sim_x11mapsharedmem c1host 32 307200 2 0 win0).1.shmcheckpoint = 2 ∧
    ∀ r : Res,
      relCount r (sim_x11mapsharedmem c1host 32 307200 2 0 win0).2.1 = 0 :=
  C1_fallback_active_but_leaks c1host 32 307200 2 0 win0 rfl rfl rfl rfl
    (Or.inr (Or.inl rfl))

/-- Claim C1 counterexample: with the failure injected at the shmget step,
the XShm image descriptor acquired at the previous rung is acquired once
but released zero times inside the call — not "released exactly once" as
claimed — while the call still falls back to the degraded path and
returns 0. -/
theorem C1_shmget_failure_leaks_image :
    acqCount Res.shmImage
      (sim_x11mapsharedmem c1host 32 307200 2 0 win0).2.1 = 1 ∧
    relCount Res.shmImage
      (sim_x11mapsharedmem c1host 32 307200 2 0 win0).2.1 = 0 ∧
    ¬ relCount Res.shmImage
      (sim_x11mapsharedmem c1host 32 307200 2 0 win0).2.1 = 1 ∧
    (sim_x11mapsharedmem c1host 32 307200 2 0 win0).2.2 = 0 := by
  decide

/-- Claim C2 (code bug): when resource acquisition on the degraded path
fails — here the host returns a NULL image descriptor from XCreateImage —
`sim_x11mapsharedmem` duly returns -1, but `sim_x11init` never
examines that return value (the call at line 540) and reports success (0)
with no image descriptor in place, instead of the non-zero error the claim
(and `up_fbinit`'s own contract of a negated errno on any failure)
requires. -/
theorem C2_degraded_failure_swallowed :
    (sim_x11mapsharedmem c2host 32 307200 2 0
        { win0 with displayOpen := true, fbpixelwidth := 320, fbpixelheight := 240 }).2.2 = -1 ∧
    (sim_x11init cfg32 c2host 0 320 240 2 0 win0).2.2.ret = 0 ∧
    (sim_x11init cfg32 c2host 0 320 240 2 0 win0).1.image = none := by
  decide

/-- Claim C7 (confirmed): depth negotiation in `sim_x11init` —
(a) a host native depth of 24 is treated exactly as 32 (identical result);
(b) initialization fails with -1 when the normalized host depth differs
from both the configured logical depth and 32 and the logical depth is
not 16; (c) when the host depth is 32 and the logical depth is 16,
initialization succeeds, reports bpp = 16, and exposes the newly allocated
conversion buffer, which is distinct from the primary host-backed
framebuffer. -/
theorem C7_depth_negotiation (cfg : Config) (h : Host) (idx : Int)
    (width height : Nat) (fbcount : Int) (interval : Nat) (w : Win) :
    (sim_x11init cfg { h with depth := 24 } idx width height fbcount
        interval w =
      sim_x11init cfg { h with depth := 32 } idx width height fbcount
        interval w) ∧
    (0 ≤ idx → idx < (cfg.screenCount : Int) → 1 ≤ fbcount →
      h.displayOk = true → normDepth h.depth ≠ cfg.fbbpp →
      normDepth h.depth ≠ 32 → cfg.fbbpp ≠ 16 →
      (sim_x11init cfg h idx width height fbcount interval w).2.2.ret =
        -1) ∧
    (0 ≤ idx → idx < (cfg.screenCount : Int) → 1 ≤ fbcount →
      h.displayOk = true → h.depth = 32 → cfg.fbbpp = 16 →
      h.transMallocFail = false →
      (sim_x11init cfg h idx width height fbcount interval w).2.2.ret =
        0 ∧
      (sim_x11init cfg h idx width height fbcount interval w).2.2.bpp =
        16 ∧
      (sim_x11init cfg h idx width height fbcount interval w).2.2.fbmem =
        some FbPtr.trans ∧
      (sim_x11init cfg h idx width height fbcount
          interval w).1.transAllocated = true ∧
      ∀ b : Option Buf, FbPtr.trans ≠ FbPtr.primary b) := by
  refine ⟨rfl, ?_, ?_⟩
  · intro h0 h1 h2 h3 hne1 hne2 hne3
    have hidx : ¬(idx < 0 ∨ (cfg.screenCount : Int) ≤ idx) := by omega
    have hfb : ¬ fbcount < 1 := by omega
    simp [sim_x11init, hidx, hfb, h3, hne1, hne2, hne3]
  · intro h0 h1 h2 h3 hd hbpp ht
    have hidx : ¬(idx < 0 ∨ (cfg.screenCount : Int) ≤ idx) := by omega
    have hfb : ¬ fbcount < 1 := by omega
    simp [sim_x11init, hidx, hfb, h3, hd, hbpp, ht, normDepth]

/-- Witness for C7: part (b) at host depth 16 with logical depth 8, and
part (c) at host depth 32 with logical depth 16. -/
theorem C7_depth_negotiation_witness :
    (sim_x11init cfg8 (okHost 16) 0 320 240 2 0 win0).2.2.ret = -1 ∧
    (sim_x11init cfg16 (okHost 32) 0 320 240 2 0 win0).2.2.ret = 0 ∧
    (sim_x11init cfg16 (okHost 32) 0 320 240 2 0 win0).2.2.bpp = 16 ∧
    (sim_x11init cfg16 (okHost 32) 0 320 240 2 0 win0).2.2.fbmem =
      some FbPtr.trans :=
  have hb := (C7_depth_negotiation cfg8 (okHost 16) 0 320 240 2 0 win0).2.1
    (by decide) (by decide) (by decide) rfl (by decide) (by decide) (by decide)
  have hc := (C7_depth_negotiation cfg16 (okHost 32) 0 320 240 2 0 win0).2.2
    (by decide) (by decide) (by decide) rfl rfl rfl rfl
  ⟨hb, hc.1, hc.2.1, hc.2.2.1⟩

/-- Claim C8 (confirmed): a successful `sim_x11init` reports
stride = bpp * width / 8 and length = stride * height, the length being
further multiplied by the buffer count exactly when interval = 0 (stated
under the realistic bounds that the negotiated depth fits in a byte and
the row size fits in the uint16_t stride); concretely, width=320,
height=240, fbcount=2, interval=0 at negotiated depth 16 reports
stride 640 and total length 307200. -/
theorem C8_layout_formulas :
    (∀ (cfg : Config) (h : Host) (idx : Int) (width height : Nat)
      (fbcount : Int) (interval : Nat) (w : Win),
      normDepth h.depth < 256 → normDepth h.depth * width / 8 < 65536 →
      (sim_x11init cfg h idx width height fbcount interval w).2.2.ret =
        0 →
      (sim_x11init cfg h idx width height fbcount interval w).2.2.stride =
        (sim_x11init cfg h idx width height fbcount
          interval w).2.2.bpp * width / 8 ∧
      (sim_x11init cfg h idx width height fbcount interval w).2.2.fblen =
        (if interval = 0
         then (sim_x11init cfg h idx width height fbcount
            interval w).2.2.stride * height * fbcount.toNat
         else (sim_x11init cfg h idx width height fbcount
            interval w).2.2.stride * height)) ∧
    ((sim_x11init cfg16 (okHost 16) 0 320 240 2 0 win0).2.2.ret = 0 ∧
     (sim_x11init cfg16 (okHost 16) 0 320 240 2 0 win0).2.2.bpp = 16 ∧
     (sim_x11init cfg16 (okHost 16) 0 320 240 2 0 win0).2.2.stride =
       640 ∧
     (sim_x11init cfg16 (okHost 16) 0 320 240 2 0 win0).2.2.fblen =
       307200) := by
  constructor
  · intro cfg h idx width height fbcount interval w h1 h2 hret
    simp only [sim_x11init] at hret ⊢
    split_ifs at hret ⊢
    all_goals try (exfalso; revert hret; norm_num [EINVAL, ENODEV]; done)
    all_goals first
      | (obtain ⟨ca, cb⟩ := ‹normDepth h.depth = 32 ∧ cfg.fbbpp = 16›
         rw [ca] at h2
         refine ⟨?_, ?_⟩
         · dsimp only
           rw [cb]
           omega
         · rfl)
      | (refine ⟨?_, ?_⟩
         · dsimp only
           rw [Nat.mod_eq_of_lt h2, Nat.mod_eq_of_lt h1]
         · rfl)
  · decide

/-- Witness for C8 at the concrete configuration. -/
theorem C8_layout_formulas_witness :
    (sim_x11init cfg16 (okHost 16) 0 320 240 2 0 win0).2.2.stride =
      (sim_x11init cfg16 (okHost 16) 0 320 240 2 0 win0).2.2.bpp *
        320 / 8 ∧
    (sim_x11init cfg16 (okHost 16) 0 320 240 2 0 win0).2.2.fblen =
      (sim_x11init cfg16 (okHost 16) 0 320 240 2 0 win0).2.2.stride *
        240 * (2 : Int).toNat :=
  have hw := C8_layout_formulas.1 cfg16 (okHost 16) 0 320 240 2 0 win0
    (by decide) (by decide) (by decide)
  ⟨hw.1, hw.2⟩

/-- Claim C9 counterexample: with three pan-info entries pending on an
initialized display, an eligible tick drops only the oldest entry, so two
entries remain pending afterwards — not at most one as claimed. -/
theorem C9_three_pending_retains_two :
    ((sim_x11loop 16000000
        { last := 0,
          fbs := [{ upFbCtx0 with initialized := true, panq := [⟨1, 640⟩, ⟨2, 640⟩, ⟨3, 640⟩] }] }).1.fbs.getD
        0 upFbCtx0).panq.length = 2 ∧
    ¬ ((sim_x11loop 16000000
        { last := 0,
          fbs := [{ upFbCtx0 with initialized := true, panq := [⟨1, 640⟩, ⟨2, 640⟩, ⟨3, 640⟩] }] }).1.fbs.getD
        0 upFbCtx0).panq.length ≤ 1 := by
  decide

/-- Claim C9 (corrected): the tick body of `sim_x11loop` never runs when
fewer than 16 ms (16000000 ns of the monotonic clock) have elapsed since
the last executed body — state and emitted host calls are then unchanged;
when it runs it stamps the gate timestamp and processes the display table;
for each display context: one not marked initialized is skipped entirely,
and on an initialized one exactly the oldest pending pan-info entry is
dropped when more than one is pending (a single tick need not reduce the
pending depth to one), the oldest remaining entry — when available — is
applied via setOffset with byte offset yoffset * stride, and pushUpdate is
invoked unconditionally. -/
theorem C9_tick_gating_and_per_display :
    (∀ (now : Nat) (s : LoopState), s.last ≤ now →
      now < s.last + 16000000 → now < 18446744073709551616 →
      sim_x11loop now s = (s, [])) ∧
    (∀ (now : Nat) (s : LoopState), s.last + 16000000 ≤ now →
      now < 18446744073709551616 →
      (sim_x11loop now s).1.last = now ∧
      (sim_x11loop now s).1.fbs = (sim_x11loop_displays 0 s.fbs).1 ∧
      (sim_x11loop now s).2 = (sim_x11loop_displays 0 s.fbs).2) ∧
    (∀ (i : Nat) (fb : UpFbCtx), fb.initialized = false →
      sim_x11loop_ctx i fb = (fb, [])) ∧
    (∀ (i : Nat) (fb : UpFbCtx), fb.initialized = true →
      (sim_x11loop_ctx i fb).1.panq =
        (if 1 < fb.panq.length then fb.panq.tail else fb.panq) ∧
      (sim_x11loop_ctx i fb).2 =
        [LoopAct.vsync i] ++
          ((sim_x11loop_ctx i fb).1.panq.head?.elim []
            (fun p => [LoopAct.setOffset i (p.yoffset * p.stride)])) ++
          [LoopAct.update i]) := by
  refine ⟨?_, ?_, ?_, ?_⟩
  · intro now s h0 h1 h2
    have hc : ¬ 16000000 ≤ usub64 now s.last := by
      simp only [usub64]
      omega
    simp [sim_x11loop, hc]
  · intro now s h0 h1
    have hc : 16000000 ≤ usub64 now s.last := by
      simp only [usub64]
      omega
    simp [sim_x11loop, hc]
  · intro i fb hinit
    simp [sim_x11loop_ctx, hinit]
  · intro i fb hinit
    simp only [sim_x11loop_ctx, hinit, Bool.true_eq_false, if_false,
      fb_paninfo_count, fb_remove_paninfo, fb_peek_paninfo]
    by_cases hl : 1 < fb.panq.length
    · simp only [hl, if_true]
      refine ⟨trivial, ?_⟩
      cases hpk : fb.panq.tail.head? <;> simp [hpk, Option.elim]
    · simp only [hl, if_false]
      refine ⟨trivial, ?_⟩
      cases hpk : fb.panq.head? <;> simp [hpk, Option.elim]

/-- Witness for the corrected C9: a below-threshold tick is a no-op, and
an eligible tick on a single initialized display with one pending entry
applies it and pushes the update. -/
theorem C9_tick_gating_and_per_display_witness :
    sim_x11loop 15999999
      { last := 0, fbs := [{ upFbCtx0 with initialized := true }] } =
      ({ last := 0, fbs := [{ upFbCtx0 with initialized := true }] }, []) ∧
    (sim_x11loop_ctx 0 { upFbCtx0 with initialized := true, panq := [⟨2, 640⟩] }).2 =
      [LoopAct.vsync 0] ++ [LoopAct.setOffset 0 1280] ++ [LoopAct.update 0] :=
  ⟨C9_tick_gating_and_per_display.1 15999999
      { last := 0, fbs := [{ upFbCtx0 with initialized := true }] }
      (by decide) (by decide) (by decide),
   ((C9_tick_gating_and_per_display.2.2.2 0
      { upFbCtx0 with initialized := true, panq := [⟨2, 640⟩] } rfl).2)⟩

/-- Claim C10 (confirmed): `up_fbinit` is idempotent at the public
interface — called on a valid display index whose context is already
marked initialized it returns OK (0) immediately, leaves the fb table
(vtable, videoinfo, planeinfo, power) and the window table unchanged, and
performs no resource acquisition. -/
theorem C10_up_fbinit_idempotent (cfg : Config) (h : Host)
    (fbs : List UpFbCtx) (wins : List Win) (display : Int)
    (h0 : 0 ≤ display) (h1 : display < (cfg.nwindows : Int))
    (h2 : (fbs.getD display.toNat upFbCtx0).initialized = true) :
    up_fbinit cfg h fbs wins display = (fbs, wins, [], 0) := by
  have hidx : ¬(display < 0 ∨ (cfg.nwindows : Int) ≤ display) := by omega
  simp only [up_fbinit]
  rw [if_neg hidx, if_pos h2]

/-- Witness for C10 at a concrete initialized display. -/
theorem C10_up_fbinit_idempotent_witness :
    up_fbinit cfg16 (okHost 32) [{ upFbCtx0 with initialized := true }]
        [win0] 0 =
      ([{ upFbCtx0 with initialized := true }], [win0], [], 0) :=
  C10_up_fbinit_idempotent cfg16 (okHost 32)
    [{ upFbCtx0 with initialized := true }] [win0] 0 (by decide) (by decide)
    (by decide)

end NuttxSim
